import Mathlib

/-!
Verification of the payment reconciliation flow of the wedding-services
marketplace backend, shallowly embedded from
src/controllers/client/payment.js.  Database rows become Lean structures,
the Prisma tables become lists, each request handler becomes a pure state
transformer from a database value (plus the request inputs and the
responses of the external collaborators) to an HTTP result paired with the
successor database.  JavaScript numbers that carry money are embedded by
their exact rational values (every finite binary64 value is a rational),
and the arithmetic that produces stored amounts rounds to binary64
through the function fl below.  The payment gateway is a parameter (a function from a
transaction reference to an optional status string; absence models a
thrown request), the HMAC primitive is a parameter, and the notifier is
recorded as the list of attempted email invocations together with two
flags saying whether each invocation succeeds.
-/

namespace WeddingPayments

/-- PaymentStatus enum of the Prisma schema. -/
inductive PaymentStatus where
  | PENDING
  | COMPLETED
  | FAILED
  | REFUNDED
deriving DecidableEq, Repr

/-- BookingStatus enum of the Prisma schema. -/
inductive BookingStatus where
  | PENDING
  | CONFIRMED
  | COMPLETED
  | CANCELLED
deriving DecidableEq, Repr

/-- Payment row (table Payment of the migration).  The DOUBLE columns
amount, adminSplit and vendorSplit hold binary64 values, embedded here by
their exact rational values; the computation that fills the splits rounds
to binary64 through fl. -/
structure Payment where
  id : String
  amount : ℚ
  status : PaymentStatus
  method : String
  transactionId : Option String
  bookingId : Option String
  userId : String
  recipientId : String
  clientId : Option String
  vendorId : Option String
  adminSplit : Option ℚ
  vendorSplit : Option ℚ
  createdAt : Nat
  updatedAt : Nat
deriving DecidableEq, Repr

/-- Booking row (table Booking of the migration). -/
structure Booking where
  id : String
  clientId : String
  serviceId : String
  eventDate : Nat
  location : String
  status : BookingStatus
deriving DecidableEq, Repr

/-- Client row. -/
structure Client where
  id : String
  userId : String
deriving DecidableEq, Repr

/-- Vendor row; chapaSubaccountId is nullable in the schema. -/
structure Vendor where
  id : String
  userId : String
  businessName : String
  chapaSubaccountId : Option String
deriving DecidableEq, Repr

/-- Service row; the vendor relation is the vendorId foreign key. -/
structure Service where
  id : String
  vendorId : String
  name : String
  price : ℚ
deriving DecidableEq, Repr

/-- ChapaSubaccount row; type is the ADMIN or VENDOR discriminator. -/
structure ChapaSubaccount where
  id : String
  accountId : String
  type : String
deriving DecidableEq, Repr

/-- The database state seen by the payment controller. -/
structure DB where
  clients : List Client
  vendors : List Vendor
  services : List Service
  bookings : List Booking
  payments : List Payment
  chapaSubaccounts : List ChapaSubaccount
deriving DecidableEq, Repr

/-- prisma.payment.findUnique by id. -/
def findPayment (db : DB) (pid : String) : Option Payment :=
  db.payments.find? (fun p => p.id == pid)

/-- prisma.payment.findFirst by transactionId, used by the webhook. -/
def findPaymentByTxRef (db : DB) (tref : String) : Option Payment :=
  db.payments.find? (fun p => p.transactionId == some tref)

/-- prisma.booking.findUnique by id. -/
def findBooking (db : DB) (bid : String) : Option Booking :=
  db.bookings.find? (fun b => b.id == bid)

/-- prisma.payment.update where id, applying a field rewrite. -/
def updatePaymentRow (db : DB) (pid : String) (f : Payment → Payment) : DB :=
  { db with payments := db.payments.map (fun p => if p.id == pid then f p else p) }

/-- prisma.booking.update where id, setting the status field. -/
def updateBookingStatusDB (db : DB) (bid : String) (st : BookingStatus) : DB :=
  { db with bookings := db.bookings.map (fun b => if b.id == bid then { b with status := st } else b) }

/-- The status of the first booking row carrying a given id, if any. -/
def bookingStatusIn (db : DB) (bid : String) : Option BookingStatus :=
  (findBooking db bid).map Booking.status

/-- JavaScript String.prototype.toLowerCase, on the character list of the
string; the gateway status vocabulary is ASCII. -/
def toLowerCase (s : String) : String :=
  String.mk (s.data.map Char.toLower)

/-- The switch statement of verifyPayment mapping the status string of the
gateway verify response onto the PaymentStatus enum. -/
def mapChapaStatusVerify (status : String) : PaymentStatus :=
  if toLowerCase status = "success" then .COMPLETED
  else if toLowerCase status = "failed" then .FAILED
  else if toLowerCase status = "fail" then .FAILED
  else if toLowerCase status = "pending" then .PENDING
  else .FAILED

/-- The switch statement of handleWebhook mapping the status string of the
webhook payload onto the PaymentStatus enum; the source duplicates the
switch of verifyPayment verbatim. -/
def mapChapaStatusWebhook (status : String) : PaymentStatus :=
  if toLowerCase status = "success" then .COMPLETED
  else if toLowerCase status = "failed" then .FAILED
  else if toLowerCase status = "fail" then .FAILED
  else if toLowerCase status = "pending" then .PENDING
  else .FAILED

/-- The mapping as the specification words it: success to COMPLETED,
failed and fail to FAILED, pending to PENDING, anything else to FAILED,
compared after lowercasing.  Written from the spec for the refinement
comparison of claim C1; the two definitions above are from the source. -/
def specStatusMap (s : String) : PaymentStatus :=
  if toLowerCase s = "success" then .COMPLETED
  else if toLowerCase s = "failed" ∨ toLowerCase s = "fail" then .FAILED
  else if toLowerCase s = "pending" then .PENDING
  else .FAILED

/-- Round a rational to the nearest integer, ties to even, as IEEE-754
round-to-nearest-even does on the scaled significand. -/
def roundNearestEvenQ (x : ℚ) : ℤ :=
  if x - ⌊x⌋ < 1/2 then ⌊x⌋
  else if (1 : ℚ)/2 < x - ⌊x⌋ then ⌊x⌋ + 1
  else if ⌊x⌋ % 2 = 0 then ⌊x⌋ else ⌊x⌋ + 1

/-- IEEE-754 binary64 rounding of a real (here rational) value: the
magnitude is scaled into the 53-bit significand range, rounded to nearest
with ties to even, and scaled back; the sign is reattached.  This models
the double arithmetic of the JavaScript source on the normal finite
range, which covers every value these handlers compute; overflow,
subnormals and NaN are outside that range and not modelled. -/
def fl (q : ℚ) : ℚ :=
  if q = 0 then 0
  else
    (if q < 0 then -1 else 1) *
      ((roundNearestEvenQ (|q| * (2 : ℚ) ^ (-(Int.log 2 |q| - 52))) : ℚ)
        * (2 : ℚ) ^ (Int.log 2 |q| - 52))

/-- The two notifier entry points of utils/emailService consumed by the
payment controller. -/
inductive EmailCall where
  | paymentCompletionToVendor
  | newBookingToVendor
deriving DecidableEq, Repr

/-- Outcome of one request: HTTP status code, the message of a thrown or
sent error if any, the successor database, the attempted notifier
invocations in order, and how many requests were made to the gateway. -/
structure HttpResult where
  httpStatus : Nat
  errMsg : Option String
  db : DB
  emails : List EmailCall
  gatewayCalls : Nat
deriving DecidableEq, Repr

/-- The notifier attempt sequence of the email try block shared by both
reconciliation paths: sendPaymentCompletionToVendor is awaited first; when
it throws, the catch skips sendNewBookingToVendor, otherwise the second
send is awaited too.  Failures stay inside the catch either way. -/
def emailAttempts (email1Ok : Bool) : List EmailCall :=
  if email1Ok then [.paymentCompletionToVendor, .newBookingToVendor]
  else [.paymentCompletionToVendor]

/-- verifyPayment of src/controllers/client/payment.js.  Arguments: the
database, the authenticated user id of req.user, the two body fields
(None models an absent field, the empty string is falsy too), the gateway
verify endpoint as a function from a transaction reference to an optional
status string (None models a thrown request or a response without a
status), the two notifier outcome flags, and the clock value used for the
updatedAt write. -/
def verifyPayment (db : DB) (userId : String) (paymentId tx_ref : Option String)
    (gw : String → Option String) (email1Ok email2Ok : Bool) (now : Nat) : HttpResult :=
  match paymentId, tx_ref with
  | some pid, some tref =>
    if pid.isEmpty ∨ tref.isEmpty then
      { httpStatus := 400, errMsg := some "Payment ID and transaction reference are required",
        db := db, emails := [], gatewayCalls := 0 }
    else
      match findPayment db pid with
      | none =>
        { httpStatus := 404, errMsg := some "Payment not found",
          db := db, emails := [], gatewayCalls := 0 }
      | some payment =>
        if payment.userId ≠ userId then
          { httpStatus := 403, errMsg := some "Unauthorized: Payment does not belong to this user",
            db := db, emails := [], gatewayCalls := 0 }
        else
          match gw tref with
          | none =>
            { httpStatus := 500, errMsg := some "Payment verification failed",
              db := db, emails := [], gatewayCalls := 1 }
          | some gwStatus =>
            let paymentStatus := mapChapaStatusVerify gwStatus
            let db1 := updatePaymentRow db payment.id
              (fun p => { p with status := paymentStatus, updatedAt := now })
            let bookingRead := payment.bookingId.bind (fun bid => findBooking db bid)
            let db2 :=
              match bookingRead with
              | some b =>
                if paymentStatus = .COMPLETED ∧ b.status = .PENDING then
                  updateBookingStatusDB db1 b.id .CONFIRMED
                else db1
              | none => db1
            let updatedBooking := payment.bookingId.bind (fun bid => findBooking db2 bid)
            let emails :=
              if paymentStatus = .COMPLETED ∧ updatedBooking.isSome then
                emailAttempts email1Ok
              else []
            { httpStatus := 200, errMsg := none, db := db2, emails := emails, gatewayCalls := 1 }
  | _, _ =>
    { httpStatus := 400, errMsg := some "Payment ID and transaction reference are required",
      db := db, emails := [], gatewayCalls := 0 }

/-- handleWebhook of src/controllers/client/payment.js.  Arguments: the
database, the chapa-signature header and the CHAPA_WEBHOOK_SECRET
environment value (None models absence; the empty string is falsy), the
HMAC-SHA256 primitive as a parameter from key and message to hex digest,
the serialized request body that the handler feeds to the primitive, the
two body fields tx_ref and status (None models an absent field; an absent
status throws inside the handler and surfaces as the catch-all 500), the
notifier outcome flags and the clock. -/
def handleWebhook (db : DB) (signature secret : Option String)
    (hmac : String → String → String) (rawBody : String)
    (tx_ref whStatus : Option String)
    (email1Ok email2Ok : Bool) (now : Nat) : HttpResult :=
  match signature, secret with
  | some sig, some sec =>
    if sig.isEmpty ∨ sec.isEmpty then
      { httpStatus := 401, errMsg := some "Unauthorized", db := db, emails := [], gatewayCalls := 0 }
    else if hmac sec rawBody ≠ sig then
      { httpStatus := 401, errMsg := some "Unauthorized", db := db, emails := [], gatewayCalls := 0 }
    else
      match tx_ref with
      | none =>
        { httpStatus := 400, errMsg := some "Bad Request: Missing tx_ref",
          db := db, emails := [], gatewayCalls := 0 }
      | some tref =>
        if tref.isEmpty then
          { httpStatus := 400, errMsg := some "Bad Request: Missing tx_ref",
            db := db, emails := [], gatewayCalls := 0 }
        else
          match findPaymentByTxRef db tref with
          | none =>
            { httpStatus := 404, errMsg := some "Payment not found",
              db := db, emails := [], gatewayCalls := 0 }
          | some payment =>
            match whStatus with
            | none =>
              { httpStatus := 500, errMsg := some "Webhook processing failed",
                db := db, emails := [], gatewayCalls := 0 }
            | some st =>
              let paymentStatus := mapChapaStatusWebhook st
              let db1 := updatePaymentRow db payment.id
                (fun p => { p with status := paymentStatus, updatedAt := now })
              let bookingRead := payment.bookingId.bind (fun bid => findBooking db1 bid)
              match bookingRead with
              | some b =>
                if paymentStatus = .COMPLETED ∧ b.status = .PENDING then
                  { httpStatus := 200, errMsg := none,
                    db := updateBookingStatusDB db1 b.id .CONFIRMED,
                    emails := emailAttempts email1Ok, gatewayCalls := 0 }
                else
                  { httpStatus := 200, errMsg := none, db := db1, emails := [], gatewayCalls := 0 }
              | none =>
                { httpStatus := 200, errMsg := none, db := db1, emails := [], gatewayCalls := 0 }
  | _, _ =>
    { httpStatus := 401, errMsg := some "Unauthorized", db := db, emails := [], gatewayCalls := 0 }

/-- initiatePayment of src/controllers/client/payment.js.  Arguments: the
database, the three body fields, the authenticated user id, whether the
gateway initialize request succeeds, the id Prisma generates for the new
payment row, the uuid suffix of the generated transaction reference, and
the clock.  A broken foreign key (a booking whose service or service
vendor row is absent) raises a TypeError in the handler and surfaces as a
bare 500 with no mutation. -/
def initiatePayment (db : DB) (amount : ℚ) (vendorId bookingId : Option String)
    (userId : String) (gwOk : Bool) (newPaymentId uuidStr : String) (now : Nat) : HttpResult :=
  match vendorId, bookingId with
  | some vid, some bid =>
    if amount = 0 ∨ vid.isEmpty ∨ bid.isEmpty ∨ userId.isEmpty then
      { httpStatus := 400, errMsg := some "Amount, vendor ID, booking ID, and user ID are required",
        db := db, emails := [], gatewayCalls := 0 }
    else
      match db.clients.find? (fun c => c.userId == userId) with
      | none =>
        { httpStatus := 400, errMsg := some "Client profile not found",
          db := db, emails := [], gatewayCalls := 0 }
      | some client =>
        match findBooking db bid with
        | none =>
          { httpStatus := 404, errMsg := some "Booking not found",
            db := db, emails := [], gatewayCalls := 0 }
        | some booking =>
          if booking.clientId ≠ client.id then
            { httpStatus := 403, errMsg := some "Unauthorized: Booking does not belong to this client",
              db := db, emails := [], gatewayCalls := 0 }
          else
            match db.services.find? (fun s => s.id == booking.serviceId) with
            | none =>
              { httpStatus := 500, errMsg := none, db := db, emails := [], gatewayCalls := 0 }
            | some service =>
              match db.vendors.find? (fun v => v.id == service.vendorId) with
              | none =>
                { httpStatus := 500, errMsg := none, db := db, emails := [], gatewayCalls := 0 }
              | some serviceVendor =>
                if serviceVendor.id ≠ vid then
                  { httpStatus := 400, errMsg := some "Vendor ID does not match the booking's vendor",
                    db := db, emails := [], gatewayCalls := 0 }
                else
                  match db.vendors.find? (fun v => v.id == vid),
                        db.chapaSubaccounts.find? (fun a => a.type == "ADMIN") with
                  | some vendor, some adminAccount =>
                    if (match vendor.chapaSubaccountId with
                        | none => true
                        | some s => s.isEmpty) then
                      { httpStatus := 500, errMsg := some "Payment accounts not configured",
                        db := db, emails := [], gatewayCalls := 0 }
                    else
                      let newPayment : Payment :=
                        { id := newPaymentId, amount := amount, status := .PENDING,
                          method := "CHAPA", transactionId := none, bookingId := some bid,
                          userId := userId, recipientId := vendor.userId,
                          clientId := some client.id, vendorId := some vid,
                          adminSplit := some (fl (amount * fl 0.1)),
                          vendorSplit := some (fl (amount * fl 0.9)),
                          createdAt := now, updatedAt := now }
                      let db1 : DB := { db with payments := newPayment :: db.payments }
                      let tref := "payment-" ++ newPaymentId ++ "-" ++ uuidStr
                      if gwOk then
                        { httpStatus := 200, errMsg := none,
                          db := updatePaymentRow db1 newPaymentId
                            (fun p => { p with transactionId := some tref }),
                          emails := [], gatewayCalls := 1 }
                      else
                        { httpStatus := 500, errMsg := some "Payment initiation failed",
                          db := updatePaymentRow db1 newPaymentId
                            (fun p => { p with status := .FAILED }),
                          emails := [], gatewayCalls := 1 }
                  | _, _ =>
                    { httpStatus := 500, errMsg := some "Payment accounts not configured",
                      db := db, emails := [], gatewayCalls := 0 }
  | _, _ =>
    { httpStatus := 400, errMsg := some "Amount, vendor ID, booking ID, and user ID are required",
      db := db, emails := [], gatewayCalls := 0 }

/-! Concrete fixtures used to evaluate the operations on closed inputs. -/

/-- A client profile owned by user u1. -/
def clientRow : Client := { id := "c1", userId := "u1" }

/-- A vendor with a configured payout subaccount. -/
def vendorRow : Vendor :=
  { id := "v1", userId := "uv1", businessName := "Biz", chapaSubaccountId := some "sub-v" }

/-- A service sold by vendorRow. -/
def serviceRow : Service := { id := "s1", vendorId := "v1", name := "Cakes", price := 100 }

/-- A booking of serviceRow by clientRow, still PENDING. -/
def bookingPendingRow : Booking :=
  { id := "b1", clientId := "c1", serviceId := "s1", eventDate := 1, location := "Addis",
    status := .PENDING }

/-- The same booking already CONFIRMED. -/
def bookingConfirmedRow : Booking := { bookingPendingRow with status := .CONFIRMED }

/-- The platform admin payout subaccount. -/
def adminSubRow : ChapaSubaccount := { id := "a1", accountId := "acct-a", type := "ADMIN" }

/-- A PENDING payment of user u1 for bookingPendingRow, reference t1. -/
def paymentPendingRow : Payment :=
  { id := "p1", amount := 100, status := .PENDING, method := "CHAPA",
    transactionId := some "t1", bookingId := some "b1", userId := "u1",
    recipientId := "uv1", clientId := some "c1", vendorId := some "v1",
    adminSplit := some 10, vendorSplit := some 90, createdAt := 0, updatedAt := 0 }

/-- The same payment already COMPLETED. -/
def paymentCompletedRow : Payment := { paymentPendingRow with status := .COMPLETED }

/-- A fully configured database: one client, vendor, service, PENDING
booking, PENDING payment and admin subaccount. -/
def dbFull : DB :=
  { clients := [clientRow], vendors := [vendorRow], services := [serviceRow],
    bookings := [bookingPendingRow], payments := [paymentPendingRow],
    chapaSubaccounts := [adminSubRow] }

/-- dbFull without any admin payout subaccount. -/
def dbNoAdminSub : DB := { dbFull with chapaSubaccounts := [] }

/-- dbFull with the booking already CONFIRMED. -/
def dbBookingConfirmed : DB := { dbFull with bookings := [bookingConfirmedRow] }

/-- dbFull with the payment already COMPLETED. -/
def dbPaymentCompleted : DB := { dbFull with payments := [paymentCompletedRow] }

/-- A stand-in HMAC primitive for closed evaluations; the handlers are
verified for every primitive, the witnesses pick this one. -/
def hmacConcat (key msg : String) : String := key ++ msg

/-- A gateway that reports success for every reference. -/
def gwSuccess : String → Option String := fun _ => some "success"

/-- A gateway that reports failed for every reference. -/
def gwFailed : String → Option String := fun _ => some "failed"

/-- A gateway that reports success for the foreign reference t-other and
pending for every other reference, in particular for t1, the stored
reference of paymentPendingRow. -/
def gwOther : String → Option String :=
  fun r => if r == "t-other" then some "success" else some "pending"

/-! Helper lemmas about the row-update combinators. -/

/-- Rewriting the rows selected by a key does not change which row a
search finds first, provided the rewrite preserves the searched field;
the found row is returned with the rewrite applied when selected. -/
theorem find_map_update {α : Type} (l : List α) (k p : α → Bool) (f : α → α)
    (hpres : ∀ a, p (f a) = p a) :
    (l.map (fun a => if k a then f a else a)).find? p
      = (l.find? p).map (fun a => if k a then f a else a) := by
  induction l with
  | nil => rfl
  | cons hd tl ih =>
    simp only [List.map_cons]
    by_cases hp : p hd
    · have h1 : p (if k hd then f hd else hd) := by
        by_cases hk : k hd <;> simp [hk, hpres, hp]
      rw [List.find?_cons_of_pos _ h1, List.find?_cons_of_pos _ hp]
      rfl
    · have h1 : ¬ p (if k hd then f hd else hd) = true := by
        by_cases hk : k hd <;> simp [hk, hpres] <;> simpa using hp
      rw [List.find?_cons_of_neg _ h1, List.find?_cons_of_neg _ hp, ih]

@[simp]
theorem updatePaymentRow_bookings (db : DB) (pid : String) (f : Payment → Payment) :
    (updatePaymentRow db pid f).bookings = db.bookings := rfl

@[simp]
theorem updateBookingStatusDB_payments (db : DB) (bid : String) (st : BookingStatus) :
    (updateBookingStatusDB db bid st).payments = db.payments := rfl

@[simp]
theorem findBooking_updatePaymentRow (db : DB) (pid bid : String) (f : Payment → Payment) :
    findBooking (updatePaymentRow db pid f) bid = findBooking db bid := rfl

/-- After an update-by-id that preserves the id field, a lookup by the
updated id returns the rewritten row. -/
theorem findPayment_updatePaymentRow_self (db : DB) (pid : String)
    (f : Payment → Payment) (p : Payment)
    (hid : ∀ q, (f q).id = q.id)
    (hfind : findPayment db pid = some p) :
    findPayment (updatePaymentRow db pid f) pid = some (f p) := by
  unfold findPayment updatePaymentRow at *
  rw [show (db.payments.map (fun q => if q.id == pid then f q else q)).find?
        (fun q => q.id == pid)
      = ((db.payments.find? (fun q => q.id == pid)).map
          (fun q => if q.id == pid then f q else q)) from
    find_map_update _ _ _ _ (fun a => by simp [hid])]
  rw [hfind]
  have hpid : p.id = pid := by simpa using List.find?_some hfind
  simp [hpid]

/-- Status of the first booking with a given id after a booking-status
update keyed by a possibly different id. -/
theorem bookingStatusIn_updateBookingStatusDB (db : DB) (tid bid : String)
    (st : BookingStatus) :
    bookingStatusIn (updateBookingStatusDB db tid st) bid
      = if bid = tid then (bookingStatusIn db bid).map (fun _ => st)
        else bookingStatusIn db bid := by
  unfold bookingStatusIn findBooking updateBookingStatusDB
  rw [show ((db.bookings.map (fun b => if b.id == tid then { b with status := st } else b)).find?
        (fun b => b.id == bid))
      = ((db.bookings.find? (fun b => b.id == bid)).map
          (fun b => if b.id == tid then { b with status := st } else b)) from
    find_map_update _ _ _ _ (fun a => rfl)]
  cases hfind : db.bookings.find? (fun b => b.id == bid) with
  | none => simp
  | some b0 =>
    have hb0' : b0.id = bid := by simpa using List.find?_some hfind
    by_cases hbt : bid = tid
    · simp [hb0', hbt]
    · simp [hb0', hbt]

/-! Claim theorems. -/

/-- C1: for every gateway status string, on both the poll path and the
webhook path, the mapped internal status agrees with the table of the
specification: success to COMPLETED, failed and fail to FAILED, pending
to PENDING, anything else to FAILED, compared after lowercasing. -/
theorem chapa_status_mapping_matches_spec (s : String) :
    mapChapaStatusVerify s = specStatusMap s ∧ mapChapaStatusWebhook s = specStatusMap s := by
  unfold mapChapaStatusVerify mapChapaStatusWebhook specStatusMap
  refine ⟨?_, ?_⟩ <;> split_ifs <;> simp_all

/-- C3: a poll verification call by an authenticated caller who is not
the owner of the payment answers 403 with the unauthorized message and
leaves the whole database, in particular the payment and booking rows,
unchanged; no gateway request and no notifier invocation happens. -/
theorem verify_unauthorized_403_no_mutation (db : DB) (userId pid tref : String)
    (gw : String → Option String) (e1 e2 : Bool) (now : Nat) (p : Payment)
    (hp : ¬ pid.isEmpty) (ht : ¬ tref.isEmpty)
    (hfind : findPayment db pid = some p) (hown : p.userId ≠ userId) :
    verifyPayment db userId (some pid) (some tref) gw e1 e2 now
      = { httpStatus := 403, errMsg := some "Unauthorized: Payment does not belong to this user",
          db := db, emails := [], gatewayCalls := 0 } := by
  unfold verifyPayment
  simp [hp, ht, hfind, hown]

/-- Witness for C3 at a concrete database: the caller intruder does not
own payment p1 of user u1 and is rejected without side effects. -/
theorem verify_unauthorized_403_no_mutation_witness :
    verifyPayment dbFull "intruder" (some "p1") (some "t1") gwSuccess true true 7
      = { httpStatus := 403, errMsg := some "Unauthorized: Payment does not belong to this user",
          db := dbFull, emails := [], gatewayCalls := 0 } :=
  verify_unauthorized_403_no_mutation dbFull "intruder" "p1" "t1" gwSuccess true true 7
    paymentPendingRow (by decide) (by decide) (by decide) (by decide)

/-- C4: with the webhook shared secret configured, a webhook request whose
signature header is missing, empty, or different from the HMAC digest of
the serialized payload under the shared secret is answered 401 and the
database is left unchanged, for every HMAC primitive; no notifier
invocation and no gateway request happens. -/
theorem webhook_bad_signature_401_no_mutation (db : DB) (sig : Option String)
    (sec : String) (hmac : String → String → String) (rawBody : String)
    (tx_ref whStatus : Option String) (e1 e2 : Bool) (now : Nat)
    (hsec : ¬ sec.isEmpty)
    (hbad : sig = none ∨ sig = some "" ∨ ∃ v, sig = some v ∧ hmac sec rawBody ≠ v) :
    handleWebhook db sig (some sec) hmac rawBody tx_ref whStatus e1 e2 now
      = { httpStatus := 401, errMsg := some "Unauthorized",
          db := db, emails := [], gatewayCalls := 0 } := by
  unfold handleWebhook
  rcases hbad with h | h | ⟨v, hv, hne⟩
  · subst h; rfl
  · subst h
    simp [show String.isEmpty "" = true from rfl]
  · subst hv
    by_cases hempty : v.isEmpty
    · simp [hempty]
    · simp [hempty, hsec, hne]

/-- Witness for C4: a wrong signature against the concatenation HMAC
stand-in is rejected with 401 and dbFull is untouched. -/
theorem webhook_bad_signature_401_no_mutation_witness :
    handleWebhook dbFull (some "wrong") (some "sec") hmacConcat "raw"
        (some "t1") (some "success") true true 7
      = { httpStatus := 401, errMsg := some "Unauthorized",
          db := dbFull, emails := [], gatewayCalls := 0 } :=
  webhook_bad_signature_401_no_mutation dbFull (some "wrong") "sec" hmacConcat "raw"
    (some "t1") (some "success") true true 7 (by decide)
    (Or.inr (Or.inr ⟨"wrong", rfl, by decide⟩))

/-- C5 as amended: each precondition failure of payment initiation leaves
the database unchanged and makes no gateway request, and answers with its
specific reason; the client-profile, booking, ownership and vendor-match
checks answer 4xx (400, 404, 403, 400 in order), but the payout
subaccounts check answers 500, not 4xx. -/
theorem initiate_precondition_failure_no_mutation (db : DB) (amount : ℚ)
    (vid bid userId : String) (gwOk : Bool) (npid uuidStr : String) (now : Nat)
    (hamount : amount ≠ 0) (hv : ¬ vid.isEmpty) (hb : ¬ bid.isEmpty)
    (hu : ¬ userId.isEmpty) :
    (db.clients.find? (fun c => c.userId == userId) = none →
        initiatePayment db amount (some vid) (some bid) userId gwOk npid uuidStr now
          = { httpStatus := 400, errMsg := some "Client profile not found",
              db := db, emails := [], gatewayCalls := 0 })
    ∧ (∀ client, db.clients.find? (fun c => c.userId == userId) = some client →
        findBooking db bid = none →
        initiatePayment db amount (some vid) (some bid) userId gwOk npid uuidStr now
          = { httpStatus := 404, errMsg := some "Booking not found",
              db := db, emails := [], gatewayCalls := 0 })
    ∧ (∀ client booking, db.clients.find? (fun c => c.userId == userId) = some client →
        findBooking db bid = some booking → booking.clientId ≠ client.id →
        initiatePayment db amount (some vid) (some bid) userId gwOk npid uuidStr now
          = { httpStatus := 403, errMsg := some "Unauthorized: Booking does not belong to this client",
              db := db, emails := [], gatewayCalls := 0 })
    ∧ (∀ client booking service serviceVendor,
        db.clients.find? (fun c => c.userId == userId) = some client →
        findBooking db bid = some booking → booking.clientId = client.id →
        db.services.find? (fun s => s.id == booking.serviceId) = some service →
        db.vendors.find? (fun v => v.id == service.vendorId) = some serviceVendor →
        serviceVendor.id ≠ vid →
        initiatePayment db amount (some vid) (some bid) userId gwOk npid uuidStr now
          = { httpStatus := 400, errMsg := some "Vendor ID does not match the booking's vendor",
              db := db, emails := [], gatewayCalls := 0 })
    ∧ (∀ client booking service serviceVendor,
        db.clients.find? (fun c => c.userId == userId) = some client →
        findBooking db bid = some booking → booking.clientId = client.id →
        db.services.find? (fun s => s.id == booking.serviceId) = some service →
        db.vendors.find? (fun v => v.id == service.vendorId) = some serviceVendor →
        serviceVendor.id = vid →
        ((db.vendors.find? (fun v => v.id == vid)).bind Vendor.chapaSubaccountId = none
          ∨ (db.vendors.find? (fun v => v.id == vid)).bind Vendor.chapaSubaccountId = some ""
          ∨ db.chapaSubaccounts.find? (fun a => a.type == "ADMIN") = none) →
        initiatePayment db amount (some vid) (some bid) userId gwOk npid uuidStr now
          = { httpStatus := 500, errMsg := some "Payment accounts not configured",
              db := db, emails := [], gatewayCalls := 0 }) := by
  refine ⟨?_, ?_, ?_, ?_, ?_⟩
  · intro hclient
    unfold initiatePayment
    simp [hamount, hv, hb, hu, hclient]
  · intro client hclient hbook
    unfold initiatePayment
    simp [hamount, hv, hb, hu, hclient, hbook]
  · intro client booking hclient hbook hown
    unfold initiatePayment
    simp [hamount, hv, hb, hu, hclient, hbook, hown]
  · intro client booking service serviceVendor hclient hbook hown hserv hsv hne
    unfold initiatePayment
    simp [hamount, hv, hb, hu, hclient, hbook, hown, hserv, hsv, hne]
  · intro client booking service serviceVendor hclient hbook hown hserv hsv heq hmiss
    unfold initiatePayment
    rcases hvend : db.vendors.find? (fun v => v.id == vid) with _ | vendor
    · simp [hamount, hv, hb, hu, hclient, hbook, hown, hserv, hsv, heq, hvend]
    · rcases hadmin : db.chapaSubaccounts.find? (fun a => a.type == "ADMIN") with _ | adminAccount
      · simp [hamount, hv, hb, hu, hclient, hbook, hown, hserv, hsv, heq, hvend, hadmin]
      · rw [hvend] at hmiss
        have hmiss' : vendor.chapaSubaccountId = none ∨ vendor.chapaSubaccountId = some "" := by
          rcases hmiss with h | h | h
          · exact Or.inl (by simpa using h)
          · exact Or.inr (by simpa using h)
          · rw [hadmin] at h; exact absurd h (by simp)
        rcases hsubid : vendor.chapaSubaccountId with _ | subId
        · simp [hamount, hv, hb, hu, hclient, hbook, hown, hserv, hsv, heq, hvend, hadmin, hsubid]
        · have hempty : subId = "" := by
            rcases hmiss' with h | h
            · rw [hsubid] at h; exact absurd h (by simp)
            · rw [hsubid] at h; simpa using h
          subst hempty
          simp [hamount, hv, hb, hu, hclient, hbook, hown, hserv, hsv, heq, hvend, hadmin,
            hsubid, show String.isEmpty "" = true from rfl]

/-- Witness for C5 as amended: initiation against a database with no
client profile for the caller answers 400 with no mutation. -/
theorem initiate_precondition_failure_no_mutation_witness :
    initiatePayment dbFull 100 (some "v1") (some "b1") "nobody" true "p9" "x" 3
      = { httpStatus := 400, errMsg := some "Client profile not found",
          db := dbFull, emails := [], gatewayCalls := 0 } :=
  (initiate_precondition_failure_no_mutation dbFull 100 "v1" "b1" "nobody" true "p9" "x" 3
    (by decide) (by decide) (by decide) (by decide)).1 (by decide)

/-- Counterexample for C5 as frozen: with the payout subaccounts not
configured the call fails the precondition check with its specific reason
and performs no mutation, but the status is 500, not a 4xx status. -/
theorem initiate_subaccount_failure_is_500 :
    (initiatePayment dbNoAdminSub 100 (some "v1") (some "b1") "u1" true "p9" "x" 3).httpStatus = 500
      ∧ (initiatePayment dbNoAdminSub 100 (some "v1") (some "b1") "u1" true "p9" "x" 3).errMsg
          = some "Payment accounts not configured"
      ∧ (initiatePayment dbNoAdminSub 100 (some "v1") (some "b1") "u1" true "p9" "x" 3).db
          = dbNoAdminSub
      ∧ ¬ (initiatePayment dbNoAdminSub 100 (some "v1") (some "b1") "u1" true "p9" "x" 3).httpStatus
            < 500 := by
  decide

/-- C6: when every initiation precondition passes, so the PENDING payment
row has been created, and the checkout-session request to the gateway
fails, the call answers 500, the payment row still exists and now carries
status FAILED, and the gateway was asked exactly once (no retry). -/
theorem initiate_gateway_failure_marks_failed (db : DB) (amount : ℚ)
    (vid bid userId npid uuidStr : String) (now : Nat)
    (client : Client) (booking : Booking) (service : Service)
    (serviceVendor vendor : Vendor) (adminAccount : ChapaSubaccount) (subId : String)
    (hamount : amount ≠ 0) (hv : ¬ vid.isEmpty) (hb : ¬ bid.isEmpty) (hu : ¬ userId.isEmpty)
    (hclient : db.clients.find? (fun c => c.userId == userId) = some client)
    (hbook : findBooking db bid = some booking)
    (hown : booking.clientId = client.id)
    (hserv : db.services.find? (fun s => s.id == booking.serviceId) = some service)
    (hsv : db.vendors.find? (fun v => v.id == service.vendorId) = some serviceVendor)
    (hmatch : serviceVendor.id = vid)
    (hvend : db.vendors.find? (fun v => v.id == vid) = some vendor)
    (hsub : vendor.chapaSubaccountId = some subId) (hsubne : ¬ subId.isEmpty)
    (hadmin : db.chapaSubaccounts.find? (fun a => a.type == "ADMIN") = some adminAccount) :
    (initiatePayment db amount (some vid) (some bid) userId false npid uuidStr now).httpStatus = 500
    ∧ (initiatePayment db amount (some vid) (some bid) userId false npid uuidStr now).errMsg
        = some "Payment initiation failed"
    ∧ (findPayment (initiatePayment db amount (some vid) (some bid) userId false npid uuidStr now).db
        npid).map Payment.status = some .FAILED
    ∧ (initiatePayment db amount (some vid) (some bid) userId false npid uuidStr now).gatewayCalls
        = 1 := by
  have hred : initiatePayment db amount (some vid) (some bid) userId false npid uuidStr now
      = { httpStatus := 500, errMsg := some "Payment initiation failed",
          db := updatePaymentRow
            { db with payments :=
                { id := npid, amount := amount, status := .PENDING, method := "CHAPA",
                  transactionId := none, bookingId := some bid, userId := userId,
                  recipientId := vendor.userId, clientId := some client.id, vendorId := some vid,
                  adminSplit := some (fl (amount * fl 0.1)),
                  vendorSplit := some (fl (amount * fl 0.9)),
                  createdAt := now, updatedAt := now } :: db.payments }
            npid (fun p => { p with status := .FAILED }),
          emails := [], gatewayCalls := 1 } := by
    unfold initiatePayment
    simp [hamount, hv, hb, hu, hclient, hbook, hown, hserv, hsv, hmatch, hvend, hadmin, hsub, hsubne]
  rw [hred]
  refine ⟨rfl, rfl, ?_, rfl⟩
  simp [findPayment, updatePaymentRow]

/-- Witness for C6 at dbFull: gateway failure leaves a FAILED row p9 and
a 500 answer after one gateway call. -/
theorem initiate_gateway_failure_marks_failed_witness :
    (initiatePayment dbFull 100 (some "v1") (some "b1") "u1" false "p9" "x" 3).httpStatus = 500
    ∧ (initiatePayment dbFull 100 (some "v1") (some "b1") "u1" false "p9" "x" 3).errMsg
        = some "Payment initiation failed"
    ∧ (findPayment (initiatePayment dbFull 100 (some "v1") (some "b1") "u1" false "p9" "x" 3).db
        "p9").map Payment.status = some .FAILED
    ∧ (initiatePayment dbFull 100 (some "v1") (some "b1") "u1" false "p9" "x" 3).gatewayCalls = 1 :=
  initiate_gateway_failure_marks_failed dbFull 100 "v1" "b1" "u1" "p9" "x" 3
    clientRow bookingPendingRow serviceRow vendorRow vendorRow adminSubRow "sub-v"
    (by decide) (by decide) (by decide) (by decide) (by decide) (by decide) (by decide)
    (by decide) (by decide) (by decide) (by decide) (by decide) (by decide) (by decide)

/-- When every initiation precondition passes and the gateway request
succeeds, the call reduces to the 200 response over the database holding
the freshly created row, with the transaction reference filled in. -/
theorem initiatePayment_success_reduces (db : DB) (amount : ℚ)
    (vid bid userId npid uuidStr : String) (now : Nat)
    (client : Client) (booking : Booking) (service : Service)
    (serviceVendor vendor : Vendor) (adminAccount : ChapaSubaccount) (subId : String)
    (hamount : amount ≠ 0) (hv : ¬ vid.isEmpty) (hb : ¬ bid.isEmpty) (hu : ¬ userId.isEmpty)
    (hclient : db.clients.find? (fun c => c.userId == userId) = some client)
    (hbook : findBooking db bid = some booking)
    (hown : booking.clientId = client.id)
    (hserv : db.services.find? (fun s => s.id == booking.serviceId) = some service)
    (hsv : db.vendors.find? (fun v => v.id == service.vendorId) = some serviceVendor)
    (hmatch : serviceVendor.id = vid)
    (hvend : db.vendors.find? (fun v => v.id == vid) = some vendor)
    (hsub : vendor.chapaSubaccountId = some subId) (hsubne : ¬ subId.isEmpty)
    (hadmin : db.chapaSubaccounts.find? (fun a => a.type == "ADMIN") = some adminAccount) :
    (initiatePayment db amount (some vid) (some bid) userId true npid uuidStr now).httpStatus = 200
    ∧ findPayment (initiatePayment db amount (some vid) (some bid) userId true npid uuidStr now).db
        npid
      = some ({ id := npid, amount := amount, status := .PENDING, method := "CHAPA",
                transactionId := some ("payment-" ++ npid ++ "-" ++ uuidStr),
                bookingId := some bid, userId := userId, recipientId := vendor.userId,
                clientId := some client.id, vendorId := some vid,
                adminSplit := some (fl (amount * fl 0.1)),
                vendorSplit := some (fl (amount * fl 0.9)),
                createdAt := now, updatedAt := now } : Payment) := by
  have hred : initiatePayment db amount (some vid) (some bid) userId true npid uuidStr now
      = { httpStatus := 200, errMsg := none,
          db := updatePaymentRow
            { db with payments :=
                { id := npid, amount := amount, status := .PENDING, method := "CHAPA",
                  transactionId := none, bookingId := some bid, userId := userId,
                  recipientId := vendor.userId, clientId := some client.id, vendorId := some vid,
                  adminSplit := some (fl (amount * fl 0.1)),
                  vendorSplit := some (fl (amount * fl 0.9)),
                  createdAt := now, updatedAt := now } :: db.payments }
            npid (fun p => { p with transactionId := some ("payment-" ++ npid ++ "-" ++ uuidStr) }),
          emails := [], gatewayCalls := 1 } := by
    unfold initiatePayment
    simp [hamount, hv, hb, hu, hclient, hbook, hown, hserv, hsv, hmatch, hvend, hadmin, hsub, hsubne]
  rw [hred]
  refine ⟨rfl, ?_⟩
  simp [findPayment, updatePaymentRow]

/-- C9 as amended: every successful payment-initiation call creates the
payment row with status PENDING, and its adminSplit and vendorSplit are
the binary64 roundings of amount times the binary64 literals 0.1 and 0.9,
the products the JavaScript source computes; they approximate 10 and 90
percent but are not exact for every amount and need not sum to the
amount. -/
theorem initiate_success_creates_pending_split_row (db : DB) (amount : ℚ)
    (vid bid userId npid uuidStr : String) (now : Nat)
    (client : Client) (booking : Booking) (service : Service)
    (serviceVendor vendor : Vendor) (adminAccount : ChapaSubaccount) (subId : String)
    (hamount : amount ≠ 0) (hv : ¬ vid.isEmpty) (hb : ¬ bid.isEmpty) (hu : ¬ userId.isEmpty)
    (hclient : db.clients.find? (fun c => c.userId == userId) = some client)
    (hbook : findBooking db bid = some booking)
    (hown : booking.clientId = client.id)
    (hserv : db.services.find? (fun s => s.id == booking.serviceId) = some service)
    (hsv : db.vendors.find? (fun v => v.id == service.vendorId) = some serviceVendor)
    (hmatch : serviceVendor.id = vid)
    (hvend : db.vendors.find? (fun v => v.id == vid) = some vendor)
    (hsub : vendor.chapaSubaccountId = some subId) (hsubne : ¬ subId.isEmpty)
    (hadmin : db.chapaSubaccounts.find? (fun a => a.type == "ADMIN") = some adminAccount) :
    (initiatePayment db amount (some vid) (some bid) userId true npid uuidStr now).httpStatus = 200
    ∧ (∃ row, findPayment
          (initiatePayment db amount (some vid) (some bid) userId true npid uuidStr now).db npid
          = some row
        ∧ row.status = .PENDING
        ∧ row.amount = amount
        ∧ row.adminSplit = some (fl (amount * fl 0.1))
        ∧ row.vendorSplit = some (fl (amount * fl 0.9))) := by
  obtain ⟨h200, hrow⟩ := initiatePayment_success_reduces db amount vid bid userId npid uuidStr now
    client booking service serviceVendor vendor adminAccount subId
    hamount hv hb hu hclient hbook hown hserv hsv hmatch hvend hsub hsubne hadmin
  exact ⟨h200, _, hrow, rfl, rfl, rfl, rfl⟩

/-- Witness for C9 as amended at dbFull with amount 100: the created row
p9 is PENDING and carries the two rounded products. -/
theorem initiate_success_creates_pending_split_row_witness :
    (initiatePayment dbFull 100 (some "v1") (some "b1") "u1" true "p9" "x" 3).httpStatus = 200
    ∧ (∃ row, findPayment
          (initiatePayment dbFull 100 (some "v1") (some "b1") "u1" true "p9" "x" 3).db "p9"
          = some row
        ∧ row.status = .PENDING
        ∧ row.amount = 100
        ∧ row.adminSplit = some (fl ((100 : ℚ) * fl 0.1))
        ∧ row.vendorSplit = some (fl ((100 : ℚ) * fl 0.9))) :=
  initiate_success_creates_pending_split_row dbFull 100 "v1" "b1" "u1" "p9" "x" 3
    clientRow bookingPendingRow serviceRow vendorRow vendorRow adminSubRow "sub-v"
    (by decide) (by decide) (by decide) (by decide) (by decide) (by decide) (by decide)
    (by decide) (by decide) (by decide) (by decide) (by decide) (by decide) (by decide)

/-- On a positive value between consecutive powers of two, fl rounds the
scaled significand down when its fractional part is below one half. -/
theorem fl_eq_of_floor_lt_half (q : ℚ) (k m : ℤ) (hq : 0 < q)
    (hlow : (2 : ℚ) ^ k ≤ q) (hhigh : q < (2 : ℚ) ^ (k + 1))
    (hm : ⌊q * (2 : ℚ) ^ (52 - k)⌋ = m)
    (hfrac : q * (2 : ℚ) ^ (52 - k) - (m : ℚ) < 1/2) :
    fl q = (m : ℚ) * (2 : ℚ) ^ (k - 52) := by
  have h2 : ((2 : ℕ) : ℚ) = (2 : ℚ) := by norm_num
  have hk : Int.log 2 q = k := by
    have hle : k ≤ Int.log 2 q := by
      rw [← Int.zpow_le_iff_le_log (by norm_num) hq, h2]
      exact hlow
    have hlt : Int.log 2 q < k + 1 := by
      rw [← Int.lt_zpow_iff_log_lt (by norm_num) hq, h2]
      exact hhigh
    omega
  unfold fl
  rw [if_neg (ne_of_gt hq), abs_of_pos hq, hk,
    if_neg (not_lt.mpr (le_of_lt hq))]
  have hexp : -(k - 52) = 52 - k := by ring
  rw [hexp]
  unfold roundNearestEvenQ
  rw [hm, if_pos hfrac]
  ring

/-- On a positive value between consecutive powers of two, fl rounds the
scaled significand up when its fractional part is above one half. -/
theorem fl_eq_of_half_lt_frac (q : ℚ) (k m : ℤ) (hq : 0 < q)
    (hlow : (2 : ℚ) ^ k ≤ q) (hhigh : q < (2 : ℚ) ^ (k + 1))
    (hm : ⌊q * (2 : ℚ) ^ (52 - k)⌋ = m)
    (hfrac : 1/2 < q * (2 : ℚ) ^ (52 - k) - (m : ℚ)) :
    fl q = ((m + 1 : ℤ) : ℚ) * (2 : ℚ) ^ (k - 52) := by
  have h2 : ((2 : ℕ) : ℚ) = (2 : ℚ) := by norm_num
  have hk : Int.log 2 q = k := by
    have hle : k ≤ Int.log 2 q := by
      rw [← Int.zpow_le_iff_le_log (by norm_num) hq, h2]
      exact hlow
    have hlt : Int.log 2 q < k + 1 := by
      rw [← Int.lt_zpow_iff_log_lt (by norm_num) hq, h2]
      exact hhigh
    omega
  unfold fl
  rw [if_neg (ne_of_gt hq), abs_of_pos hq, hk,
    if_neg (not_lt.mpr (le_of_lt hq))]
  have hexp : -(k - 52) = 52 - k := by ring
  rw [hexp]
  unfold roundNearestEvenQ
  rw [hm, if_neg (not_lt.mpr (le_of_lt hfrac)), if_pos hfrac]
  ring

/-- The binary64 value of the literal 0.1: one ulp above one tenth. -/
theorem fl_tenth : fl 0.1 = 7205759403792794 * (2 : ℚ) ^ (-(56 : ℤ)) := by
  have h := fl_eq_of_half_lt_frac 0.1 (-4) 7205759403792793 (by norm_num)
    (by norm_num) (by norm_num)
    (by rw [Int.floor_eq_iff]; norm_num)
    (by norm_num)
  rw [h]
  norm_num

/-- The binary64 value of the literal 0.9. -/
theorem fl_nine_tenths : fl 0.9 = 8106479329266893 * (2 : ℚ) ^ (-(53 : ℤ)) := by
  have h := fl_eq_of_half_lt_frac 0.9 (-1) 8106479329266892 (by norm_num)
    (by norm_num) (by norm_num)
    (by rw [Int.floor_eq_iff]; norm_num)
    (by norm_num)
  rw [h]
  norm_num

/-- The binary64 value of the literal 0.3: one fifth of an ulp below
three tenths. -/
theorem fl_three_tenths : fl 0.3 = (5404319552844595 : ℚ) / 2 ^ 54 := by
  have h := fl_eq_of_floor_lt_half 0.3 (-2) 5404319552844595 (by norm_num)
    (by norm_num) (by norm_num)
    (by rw [Int.floor_eq_iff]; norm_num)
    (by norm_num)
  rw [h]
  norm_num

/-- The binary64 product of the double 0.3 with the double 0.1: the
exact product rounds down, landing exactly on 0.03. -/
theorem fl_prod_tenth :
    fl (((5404319552844595 : ℚ) / 2 ^ 54) * fl 0.1)
      = (1080863910568919 : ℚ) / 2 ^ 55 := by
  rw [fl_tenth]
  have h := fl_eq_of_floor_lt_half
    (((5404319552844595 : ℚ) / 2 ^ 54) * (7205759403792794 * (2 : ℚ) ^ (-(56 : ℤ))))
    (-6) 8646911284551352 (by norm_num)
    (by norm_num) (by norm_num)
    (by rw [Int.floor_eq_iff]; norm_num)
    (by norm_num)
  rw [h]
  norm_num

/-- The binary64 product of the double 0.3 with the double 0.9: the
exact product rounds up, half an ulp above nine tenths of the amount. -/
theorem fl_prod_nine_tenths :
    fl (((5404319552844595 : ℚ) / 2 ^ 54) * fl 0.9)
      = (4863887597560136 : ℚ) / 2 ^ 54 := by
  rw [fl_nine_tenths]
  have h := fl_eq_of_half_lt_frac
    (((5404319552844595 : ℚ) / 2 ^ 54) * (8106479329266893 * (2 : ℚ) ^ (-(53 : ℤ))))
    (-2) 4863887597560135 (by norm_num)
    (by norm_num) (by norm_num)
    (by rw [Int.floor_eq_iff]; norm_num)
    (by norm_num)
  rw [h]
  norm_num

/-- Counterexample for C9 as frozen: initiating with the binary64 amount
written 0.3 succeeds and creates the PENDING row, but its vendorSplit is
not exactly ninety percent of the amount, and the two splits do not sum
to the amount (they exceed it by one ulp). -/
theorem initiate_splits_inexact_for_double_0_3 :
    ∃ row, findPayment
        (initiatePayment dbFull ((5404319552844595 : ℚ) / 2 ^ 54)
          (some "v1") (some "b1") "u1" true "p9" "x" 3).db "p9"
        = some row
      ∧ row.status = .PENDING
      ∧ row.vendorSplit ≠ some (((5404319552844595 : ℚ) / 2 ^ 54) * (9 / 10))
      ∧ (∀ a v, row.adminSplit = some a → row.vendorSplit = some v →
          a + v ≠ (5404319552844595 : ℚ) / 2 ^ 54) := by
  obtain ⟨h200, hrow⟩ := initiatePayment_success_reduces dbFull
    ((5404319552844595 : ℚ) / 2 ^ 54) "v1" "b1" "u1" "p9" "x" 3
    clientRow bookingPendingRow serviceRow vendorRow vendorRow adminSubRow "sub-v"
    (by norm_num) (by decide) (by decide) (by decide) (by decide) (by decide) (by decide)
    (by decide) (by decide) (by decide) (by decide) (by decide) (by decide) (by decide)
  refine ⟨_, hrow, rfl, ?_, ?_⟩
  · rw [fl_prod_nine_tenths]
    intro h
    rw [Option.some_inj] at h
    norm_num at h
  · intro a v ha hv
    rw [fl_prod_tenth, Option.some_inj] at ha
    rw [fl_prod_nine_tenths, Option.some_inj] at hv
    subst ha
    subst hv
    norm_num

@[simp]
theorem findPayment_updateBookingStatusDB (db : DB) (tid pid : String) (st : BookingStatus) :
    findPayment (updateBookingStatusDB db tid st) pid = findPayment db pid := rfl

@[simp]
theorem findPaymentByTxRef_updateBookingStatusDB (db : DB) (tid tref : String)
    (st : BookingStatus) :
    findPaymentByTxRef (updateBookingStatusDB db tid st) tref = findPaymentByTxRef db tref := rfl

@[simp]
theorem bookingStatusIn_updatePaymentRow (db : DB) (pid bid : String) (f : Payment → Payment) :
    bookingStatusIn (updatePaymentRow db pid f) bid = bookingStatusIn db bid := rfl

/-- Two databases with the same bookings list assign the same status to
every booking id. -/
theorem bookingStatusIn_congr (d1 d2 : DB) (bid : String)
    (h : d1.bookings = d2.bookings) : bookingStatusIn d1 bid = bookingStatusIn d2 bid := by
  unfold bookingStatusIn findBooking
  rw [h]

/-- A status-and-timestamp rewrite keyed by the id of the row found by
transaction reference is still found by the same reference, rewritten. -/
theorem findPaymentByTxRef_update_status (db : DB) (tref : String) (q : Payment)
    (st : PaymentStatus) (now : Nat)
    (hfind : findPaymentByTxRef db tref = some q) :
    findPaymentByTxRef
        (updatePaymentRow db q.id (fun p => { p with status := st, updatedAt := now })) tref
      = some { q with status := st, updatedAt := now } := by
  unfold findPaymentByTxRef updatePaymentRow at *
  rw [show ((db.payments.map (fun p => if p.id == q.id
          then { p with status := st, updatedAt := now } else p)).find?
        (fun p => p.transactionId == some tref))
      = ((db.payments.find? (fun p => p.transactionId == some tref)).map
          (fun p => if p.id == q.id then { p with status := st, updatedAt := now } else p)) from
    find_map_update _ _ _ _ (fun a => by
      by_cases h : (a.id == q.id) = true <;> simp [h])]
  rw [hfind]
  simp

/-- On the authorized poll path with a responding gateway, the payment row
is rewritten to the mapped status with the fresh timestamp, whatever its
previous status was, and the call answers 200. -/
theorem verifyPayment_writes_mapped_status (db : DB) (userId pid tref : String)
    (gw : String → Option String) (e1 e2 : Bool) (now : Nat) (p : Payment) (s : String)
    (hp : ¬ pid.isEmpty) (ht : ¬ tref.isEmpty)
    (hfind : findPayment db pid = some p) (hown : p.userId = userId)
    (hgw : gw tref = some s) :
    findPayment (verifyPayment db userId (some pid) (some tref) gw e1 e2 now).db pid
      = some { p with status := mapChapaStatusVerify s, updatedAt := now }
    ∧ (verifyPayment db userId (some pid) (some tref) gw e1 e2 now).httpStatus = 200 := by
  have hid : p.id = pid := by simpa using List.find?_some hfind
  have hupd : findPayment
      (updatePaymentRow db pid
        (fun q => { q with status := mapChapaStatusVerify s, updatedAt := now }))
      pid = some { p with status := mapChapaStatusVerify s, updatedAt := now } :=
    findPayment_updatePaymentRow_self db pid
      (fun q => { q with status := mapChapaStatusVerify s, updatedAt := now }) p
      (fun q => rfl) hfind
  unfold verifyPayment
  rcases hbr : p.bookingId.bind (fun x => findBooking db x) with _ | b
  · simp [hp, ht, hfind, hown, hgw, hbr, hid, hupd]
  · by_cases hguard : mapChapaStatusVerify s = .COMPLETED ∧ b.status = .PENDING
    · obtain ⟨hg1, hg2⟩ := hguard
      rw [hg1] at hupd
      simp [hp, ht, hfind, hown, hgw, hbr, hg1, hg2, hid, hupd]
    · simp [hp, ht, hfind, hown, hgw, hbr, hguard, hid, hupd]

/-- C7: the reconciliation paths persist the mapped status and the fresh
timestamp unconditionally.  On the poll path, for every prior row value
the row becomes the mapped status with updatedAt := now; on the webhook
path likewise; no guard inspects the previous status, so a COMPLETED
payment is rewritten to FAILED when a later call reports failed, as the
witness exhibits. -/
theorem reconciliation_writes_status_unconditionally (db : DB)
    (userId pid tref sig sec rawBody wtref t : String)
    (gw : String → Option String) (hmac : String → String → String)
    (e1 e2 : Bool) (now : Nat) (p q : Payment) (s : String)
    (hp : ¬ pid.isEmpty) (ht : ¬ tref.isEmpty)
    (hfind : findPayment db pid = some p) (hown : p.userId = userId)
    (hgw : gw tref = some s)
    (hsig : ¬ sig.isEmpty) (hsec : ¬ sec.isEmpty) (hsgn : hmac sec rawBody = sig)
    (hwt : ¬ wtref.isEmpty) (hfindw : findPaymentByTxRef db wtref = some q) :
    findPayment (verifyPayment db userId (some pid) (some tref) gw e1 e2 now).db pid
      = some { p with status := mapChapaStatusVerify s, updatedAt := now }
    ∧ findPaymentByTxRef
        (handleWebhook db (some sig) (some sec) hmac rawBody (some wtref) (some t) e1 e2 now).db
        wtref
      = some { q with status := mapChapaStatusWebhook t, updatedAt := now } := by
  refine ⟨(verifyPayment_writes_mapped_status db userId pid tref gw e1 e2 now p s
    hp ht hfind hown hgw).1, ?_⟩
  have hupd := findPaymentByTxRef_update_status db wtref q (mapChapaStatusWebhook t) now hfindw
  unfold handleWebhook
  rcases hbr : q.bookingId.bind (fun x => findBooking db x) with _ | b
  · simp [hsig, hsec, hsgn, hwt, hfindw, hbr, hupd]
  · by_cases hguard : mapChapaStatusWebhook t = .COMPLETED ∧ b.status = .PENDING
    · obtain ⟨hg1, hg2⟩ := hguard
      rw [hg1] at hupd
      simp [hsig, hsec, hsgn, hwt, hfindw, hbr, hg1, hg2, hupd]
    · simp [hsig, hsec, hsgn, hwt, hfindw, hbr, hguard, hupd]

/-- Witness for C7: on a payment already COMPLETED, a poll call and a
webhook call both reporting failed rewrite the row to FAILED with the
fresh timestamp: the status regresses from COMPLETED to FAILED. -/
theorem reconciliation_writes_status_unconditionally_witness :
    findPayment (verifyPayment dbPaymentCompleted "u1" (some "p1") (some "t1")
        gwFailed true true 9).db "p1"
      = some { paymentCompletedRow with status := .FAILED, updatedAt := 9 }
    ∧ findPaymentByTxRef
        (handleWebhook dbPaymentCompleted (some "secraw") (some "sec") hmacConcat "raw"
          (some "t1") (some "failed") true true 9).db "t1"
      = some { paymentCompletedRow with status := .FAILED, updatedAt := 9 } :=
  reconciliation_writes_status_unconditionally dbPaymentCompleted
    "u1" "p1" "t1" "secraw" "sec" "raw" "t1" "failed" gwFailed hmacConcat true true 9
    paymentCompletedRow paymentCompletedRow "failed"
    (by decide) (by decide) (by decide) (by decide) (by decide)
    (by decide) (by decide) (by decide) (by decide) (by decide)

/-- C10: the poll path never consults the stored transaction reference of
the payment: even when the caller supplies the reference of a different
transaction, the status the gateway reports for that unrelated reference
is mapped and written onto the payment row, and the call answers 200. -/
theorem verify_ignores_stored_txref (db : DB) (userId pid tref r0 : String)
    (gw : String → Option String) (e1 e2 : Bool) (now : Nat) (p : Payment) (s : String)
    (hp : ¬ pid.isEmpty) (ht : ¬ tref.isEmpty)
    (hfind : findPayment db pid = some p) (hown : p.userId = userId)
    (hstored : p.transactionId = some r0) (hdiff : r0 ≠ tref)
    (hgw : gw tref = some s) :
    findPayment (verifyPayment db userId (some pid) (some tref) gw e1 e2 now).db pid
      = some { p with status := mapChapaStatusVerify s, updatedAt := now }
    ∧ (verifyPayment db userId (some pid) (some tref) gw e1 e2 now).httpStatus = 200 :=
  verifyPayment_writes_mapped_status db userId pid tref gw e1 e2 now p s hp ht hfind hown hgw

/-- Witness for C10: the caller owns p1, whose stored reference is t1,
but supplies the foreign reference t-other; the gateway reports success
for t-other (and pending for t1), and COMPLETED is written onto p1. -/
theorem verify_ignores_stored_txref_witness :
    findPayment (verifyPayment dbFull "u1" (some "p1") (some "t-other")
        gwOther true true 9).db "p1"
      = some { paymentPendingRow with status := .COMPLETED, updatedAt := 9 }
    ∧ (verifyPayment dbFull "u1" (some "p1") (some "t-other") gwOther true true 9).httpStatus
        = 200 :=
  verify_ignores_stored_txref dbFull "u1" "p1" "t-other" "t1" gwOther true true 9
    paymentPendingRow "success"
    (by decide) (by decide) (by decide) (by decide) (by decide) (by decide) (by decide)

/-- Every poll verification call either leaves the bookings table exactly
as it was, or confirms one booking: in the latter case the gateway
reported a status mapping to COMPLETED and the confirmed booking was
still PENDING, and the bookings table is rewritten only at its id. -/
theorem verifyPayment_bookings_shape (db : DB) (userId : String)
    (paymentId tx_ref : Option String) (gw : String → Option String)
    (e1 e2 : Bool) (now : Nat) :
    (verifyPayment db userId paymentId tx_ref gw e1 e2 now).db.bookings = db.bookings
    ∨ ∃ (r s : String) (b : Booking), gw r = some s ∧ mapChapaStatusVerify s = .COMPLETED
        ∧ bookingStatusIn db b.id = some .PENDING
        ∧ (verifyPayment db userId paymentId tx_ref gw e1 e2 now).db.bookings
            = db.bookings.map
                (fun bk => if bk.id == b.id then { bk with status := .CONFIRMED } else bk) := by
  unfold verifyPayment
  rcases paymentId with _ | pid
  · left; rfl
  rcases tx_ref with _ | tref
  · left; rfl
  by_cases hval : pid.isEmpty ∨ tref.isEmpty
  · left; simp [hval]
  rcases hfp : findPayment db pid with _ | p
  · left; simp [hval, hfp]
  by_cases hown : p.userId ≠ userId
  · left; simp [hval, hfp, hown]
  rcases hgw : gw tref with _ | s
  · left; simp [hval, hfp, hown, hgw]
  rcases hbr : p.bookingId.bind (fun x => findBooking db x) with _ | b
  · left; simp [hval, hfp, hown, hgw, hbr]
  by_cases hguard : mapChapaStatusVerify s = .COMPLETED ∧ b.status = .PENDING
  · right
    refine ⟨tref, s, b, hgw, hguard.1, ?_, ?_⟩
    · rcases hbid : p.bookingId with _ | bbid
      · rw [hbid] at hbr; simp at hbr
      · rw [hbid] at hbr
        simp only [Option.some_bind] at hbr
        unfold findBooking at hbr
        have hbeq : b.id = bbid := by simpa using List.find?_some hbr
        unfold bookingStatusIn findBooking
        rw [hbeq, hbr]
        simp [hguard.2]
    · obtain ⟨hg1, hg2⟩ := hguard
      simp [hval, hfp, hown, hgw, hbr, hg1, hg2, updateBookingStatusDB, updatePaymentRow_bookings]
  · left
    simp [hval, hfp, hown, hgw, hbr, hguard]

/-- Every webhook call either leaves the bookings table exactly as it
was, or confirms one still-PENDING booking after the payload status
mapped to COMPLETED. -/
theorem handleWebhook_bookings_shape (db : DB) (sig sec : Option String)
    (hmac : String → String → String) (rawBody : String)
    (wtx wst : Option String) (e1 e2 : Bool) (now : Nat) :
    (handleWebhook db sig sec hmac rawBody wtx wst e1 e2 now).db.bookings = db.bookings
    ∨ ∃ (s : String) (b : Booking), wst = some s ∧ mapChapaStatusWebhook s = .COMPLETED
        ∧ bookingStatusIn db b.id = some .PENDING
        ∧ (handleWebhook db sig sec hmac rawBody wtx wst e1 e2 now).db.bookings
            = db.bookings.map
                (fun bk => if bk.id == b.id then { bk with status := .CONFIRMED } else bk) := by
  unfold handleWebhook
  rcases sig with _ | sigv
  · left; rfl
  rcases sec with _ | secv
  · left; rfl
  by_cases hval : sigv.isEmpty ∨ secv.isEmpty
  · left; simp [hval]
  by_cases hsgn : hmac secv rawBody ≠ sigv
  · left; simp [hval, hsgn]
  rcases wtx with _ | tref
  · left; simp [hval, hsgn]
  by_cases htr : tref.isEmpty
  · left; simp [hval, hsgn, htr]
  rcases hfp : findPaymentByTxRef db tref with _ | q
  · left; simp [hval, hsgn, htr, hfp]
  rcases wst with _ | st
  · left; simp [hval, hsgn, htr, hfp]
  rcases hbr : q.bookingId.bind (fun x => findBooking db x) with _ | b
  · left; simp [hval, hsgn, htr, hfp, hbr]
  by_cases hguard : mapChapaStatusWebhook st = .COMPLETED ∧ b.status = .PENDING
  · right
    refine ⟨st, b, rfl, hguard.1, ?_, ?_⟩
    · rcases hbid : q.bookingId with _ | bbid
      · rw [hbid] at hbr; simp at hbr
      · rw [hbid] at hbr
        simp only [Option.some_bind] at hbr
        unfold findBooking at hbr
        have hbeq : b.id = bbid := by simpa using List.find?_some hbr
        unfold bookingStatusIn findBooking
        rw [hbeq, hbr]
        simp [hguard.2]
    · obtain ⟨hg1, hg2⟩ := hguard
      simp [hval, hsgn, htr, hfp, hbr, hg1, hg2, updateBookingStatusDB, updatePaymentRow_bookings]
  · left
    simp [hval, hsgn, htr, hfp, hbr, hguard]

/-- C2: on both reconciliation paths, a booking that is not PENDING keeps
its status unchanged (so a second call again reporting COMPLETED is a
no-op on a CONFIRMED booking), and when the mapped status of a call is
not COMPLETED the bookings table is untouched, so no other path of these
operations moves a booking to CONFIRMED. -/
theorem booking_confirmed_only_once_from_pending (db : DB) (userId : String)
    (paymentId tx_ref : Option String) (gw : String → Option String)
    (sig sec : Option String) (hmac : String → String → String) (rawBody : String)
    (wtx wst : Option String) (e1 e2 f1 f2 : Bool) (now now' : Nat) (bid : String) :
    (bookingStatusIn db bid ≠ some .PENDING →
        bookingStatusIn (verifyPayment db userId paymentId tx_ref gw e1 e2 now).db bid
          = bookingStatusIn db bid
      ∧ bookingStatusIn (handleWebhook db sig sec hmac rawBody wtx wst f1 f2 now').db bid
          = bookingStatusIn db bid)
    ∧ ((∀ r s, gw r = some s → mapChapaStatusVerify s ≠ .COMPLETED) →
        (verifyPayment db userId paymentId tx_ref gw e1 e2 now).db.bookings = db.bookings)
    ∧ (∀ s, wst = some s → mapChapaStatusWebhook s ≠ .COMPLETED →
        (handleWebhook db sig sec hmac rawBody wtx wst f1 f2 now').db.bookings = db.bookings) := by
  refine ⟨?_, ?_, ?_⟩
  · intro hne
    constructor
    · rcases verifyPayment_bookings_shape db userId paymentId tx_ref gw e1 e2 now with
        h | ⟨r, s, b, hgw, hmap, hpend, heq⟩
      · exact bookingStatusIn_congr _ _ _ h
      · rw [bookingStatusIn_congr _ (updateBookingStatusDB db b.id .CONFIRMED) bid
          (by rw [heq]; rfl)]
        rw [bookingStatusIn_updateBookingStatusDB]
        by_cases hb : bid = b.id
        · exact absurd (hb ▸ hpend) hne
        · simp [hb]
    · rcases handleWebhook_bookings_shape db sig sec hmac rawBody wtx wst f1 f2 now' with
        h | ⟨s, b, hst, hmap, hpend, heq⟩
      · exact bookingStatusIn_congr _ _ _ h
      · rw [bookingStatusIn_congr _ (updateBookingStatusDB db b.id .CONFIRMED) bid
          (by rw [heq]; rfl)]
        rw [bookingStatusIn_updateBookingStatusDB]
        by_cases hb : bid = b.id
        · exact absurd (hb ▸ hpend) hne
        · simp [hb]
  · intro hno
    rcases verifyPayment_bookings_shape db userId paymentId tx_ref gw e1 e2 now with
      h | ⟨r, s, b, hgw, hmap, hpend, heq⟩
    · exact h
    · exact absurd hmap (hno r s hgw)
  · intro s hs hnm
    rcases handleWebhook_bookings_shape db sig sec hmac rawBody wtx wst f1 f2 now' with
      h | ⟨s', b, hst, hmap, hpend, heq⟩
    · exact h
    · rw [hs] at hst
      injection hst with hss
      rw [hss] at hnm
      exact absurd hmap hnm

/-- Witness for C2 at dbBookingConfirmed: a poll call and a webhook call
that both report success again leave the CONFIRMED booking b1 unchanged. -/
theorem booking_confirmed_only_once_from_pending_witness :
    bookingStatusIn (verifyPayment dbBookingConfirmed "u1" (some "p1") (some "t1")
        gwSuccess true true 9).db "b1"
      = bookingStatusIn dbBookingConfirmed "b1"
    ∧ bookingStatusIn (handleWebhook dbBookingConfirmed (some "secraw") (some "sec")
        hmacConcat "raw" (some "t1") (some "success") true true 9).db "b1"
      = bookingStatusIn dbBookingConfirmed "b1" :=
  (booking_confirmed_only_once_from_pending dbBookingConfirmed "u1" (some "p1") (some "t1")
    gwSuccess (some "secraw") (some "sec") hmacConcat "raw" (some "t1") (some "success")
    true true true true 9 9 "b1").1 (by decide)

end WeddingPayments
